import Mathlib

/-! # LibreWeb-Browser: the Markdown tree renderer and the IPFS client wrapper

A shallow embedding of `src/markdown-render.cpp` (the per-node handler
`S_render_node`, the character callback `outc` and the entry point
`renderWithMem`) and of `src/ipfs.cc` (`getNrPeers`, `getBandwidthRates`,
`publish`), followed by the properties proved about them.

The handler talks to the cmark renderer only through `renderer->out`
(macros `OUT` and `LIT`) and `renderer->cr` (macro `CR`).  Its effect is
therefore embedded as the ordered list of calls it makes on the renderer,
next to the lines it writes to the debug stream and its return value.
The renderer of the cmark library itself (`cmark_render`, its iterator and
its output writer) is not part of the two source files; it is modelled
separately and every such definition says so.
-/

set_option linter.unusedVariables false

namespace MarkdownRender

/-! ## Node model -/

/-- The node kinds that `S_render_node` switches on, in the order of the
`case` labels.  `other code` stands for a `node->type` value that is none of
the 22 enumerators (the raw value is kept only to tell such values apart). -/
inductive cmark_node_type where
  | CMARK_NODE_DOCUMENT
  | CMARK_NODE_BLOCK_QUOTE
  | CMARK_NODE_LIST
  | CMARK_NODE_ITEM
  | CMARK_NODE_HEADING
  | CMARK_NODE_CODE_BLOCK
  | CMARK_NODE_HTML_BLOCK
  | CMARK_NODE_CUSTOM_BLOCK
  | CMARK_NODE_THEMATIC_BREAK
  | CMARK_NODE_PARAGRAPH
  | CMARK_NODE_TEXT
  | CMARK_NODE_LINEBREAK
  | CMARK_NODE_SOFTBREAK
  | CMARK_NODE_CODE
  | CMARK_NODE_HTML_INLINE
  | CMARK_NODE_CUSTOM_INLINE
  | CMARK_NODE_STRONG
  | CMARK_NODE_EMPH
  | CMARK_NODE_LINK
  | CMARK_NODE_IMAGE
  | CMARK_NODE_FOOTNOTE_REFERENCE
  | CMARK_NODE_FOOTNOTE_DEFINITION
  | other (code : Nat)
  deriving DecidableEq, Repr

/-- The two traversal events a handler is called with. -/
inductive cmark_event_type where
  | CMARK_EVENT_ENTER
  | CMARK_EVENT_EXIT
  deriving DecidableEq, Repr

/-- The escaping modes a handler can pass to `renderer->out`. -/
inductive cmark_escaping where
  | LITERAL
  | NORMAL
  | TITLE
  | URL
  deriving DecidableEq, Repr

/-- A tree node: its kind, its literal payload (the empty string when the
kind carries none) and its children in document order. -/
inductive cmark_node where
  | mk (type : cmark_node_type) (literal : String) (children : List cmark_node)

/-- The field `node->type`. -/
def cmark_node.type : cmark_node → cmark_node_type
  | .mk t _ _ => t

/-- The accessor `cmark_node_get_literal(node)`. -/
def cmark_node_get_literal : cmark_node → String
  | .mk _ l _ => l

/-- Membership of a kind in the closed enumeration of 22 kinds. -/
def cmark_node_type.inEnumeration : cmark_node_type → Bool
  | .other _ => false
  | _ => true

/-! ## The per-node handler -/

/-- One call made by a handler on the renderer it is given:
`out s wrap escaping` is `renderer->out(renderer, node, s, wrap, escaping)`;
`request_break level` is a break request (`renderer->cr(renderer)` is level 1,
a blank-line request is level 2). -/
inductive RendererCall where
  | out (s : String) (wrap : Bool) (escaping : cmark_escaping)
  | request_break (level : Nat)
  deriving DecidableEq, Repr

/-- The expansion of `OUT(s, wrap, escaping)`. -/
def OUT (s : String) (wrap : Bool) (escaping : cmark_escaping) : RendererCall :=
  RendererCall.out s wrap escaping

/-- The expansion of `LIT(s)`: no wrapping, LITERAL escaping. -/
def LIT (s : String) : RendererCall :=
  RendererCall.out s false cmark_escaping.LITERAL

/-- The expansion of `CR()`. -/
def CR : RendererCall :=
  RendererCall.request_break 1

/-- What one invocation of the handler does: the lines written with
`qDebug()`, the calls made on the renderer in order, and the returned value.
`ret = none` records that `assert(false)` stopped the program instead of the
function returning. -/
structure HandlerResult where
  debug : List String
  calls : List RendererCall
  ret : Option Int
  deriving DecidableEq, Repr

/-- The handler `MarkdownRender::S_render_node`, one alternative per `case`
label of the `switch`; every alternative but the default one falls out of
the `switch` to `return 1`. -/
def S_render_node (node : cmark_node) (ev_type : cmark_event_type) (options : Int) :
    HandlerResult :=
  let entering : Bool := decide (ev_type = cmark_event_type.CMARK_EVENT_ENTER)
  match node.type with
  | .CMARK_NODE_DOCUMENT => { debug := ["Document"], calls := [], ret := some 1 }
  | .CMARK_NODE_BLOCK_QUOTE => { debug := [], calls := [], ret := some 1 }
  | .CMARK_NODE_LIST => { debug := ["List"], calls := [], ret := some 1 }
  | .CMARK_NODE_ITEM => { debug := ["Item"], calls := [], ret := some 1 }
  | .CMARK_NODE_HEADING => { debug := ["Heading"], calls := [], ret := some 1 }
  | .CMARK_NODE_CODE_BLOCK => { debug := [], calls := [], ret := some 1 }
  | .CMARK_NODE_HTML_BLOCK => { debug := [], calls := [], ret := some 1 }
  | .CMARK_NODE_CUSTOM_BLOCK => { debug := [], calls := [], ret := some 1 }
  | .CMARK_NODE_THEMATIC_BREAK => { debug := [], calls := [], ret := some 1 }
  | .CMARK_NODE_PARAGRAPH => { debug := ["Paragraph"], calls := [], ret := some 1 }
  | .CMARK_NODE_TEXT =>
      -- False = no wrap, we didn't specify a width
      { debug := ["Text"],
        calls := [OUT (cmark_node_get_literal node) false cmark_escaping.NORMAL],
        ret := some 1 }
  | .CMARK_NODE_LINEBREAK => { debug := [], calls := [], ret := some 1 }
  | .CMARK_NODE_SOFTBREAK => { debug := [], calls := [], ret := some 1 }
  | .CMARK_NODE_CODE => { debug := [], calls := [], ret := some 1 }
  | .CMARK_NODE_HTML_INLINE => { debug := [], calls := [], ret := some 1 }
  | .CMARK_NODE_CUSTOM_INLINE => { debug := [], calls := [], ret := some 1 }
  | .CMARK_NODE_STRONG => { debug := ["Bold"], calls := [], ret := some 1 }
  | .CMARK_NODE_EMPH =>
      if entering then
        { debug := ["Italic"], calls := [LIT "_"], ret := some 1 }
      else
        { debug := ["Italic"], calls := [LIT "_"], ret := some 1 }
  | .CMARK_NODE_LINK => { debug := [], calls := [], ret := some 1 }
  | .CMARK_NODE_IMAGE => { debug := [], calls := [], ret := some 1 }
  | .CMARK_NODE_FOOTNOTE_REFERENCE => { debug := [], calls := [], ret := some 1 }
  | .CMARK_NODE_FOOTNOTE_DEFINITION => { debug := [], calls := [], ret := some 1 }
  | .other _ => { debug := [], calls := [], ret := none }

/-! ## The renderer the handler is run by

`renderWithMem` hands the tree, the width, `outc` and `S_render_node` to
`cmark_render` of the cmark library, whose code is not in the two source
files.  The definitions of this section model that library. -/

/-- Modelled from the spec: the render context of the Output Writer (§3,
§4.1), which lives in the cmark library and is missing from the sources.
`buffer` is the text accumulated so far, `column` the current column,
`width` the configured line width, `need_cr` the blank-lines-needed counter
(0, 1 or 2) and `last_breakable` the buffer position of the last whitespace
at which the current line may be broken (0 when there is none). -/
structure cmark_renderer where
  buffer : List Char
  column : Nat
  width : Int
  need_cr : Nat
  last_breakable : Nat
  deriving DecidableEq, Repr

/-- Modelled from the spec: `cmark_render_code_point` of the cmark library
(missing from the sources) appends one code point to the buffer and advances
the column by one character (§4.1: columns count characters, not bytes). -/
def cmark_render_code_point (renderer : cmark_renderer) (c : Char) : cmark_renderer :=
  { renderer with buffer := renderer.buffer ++ [c], column := renderer.column + 1 }

/-- The callback `outc` of the source: whatever the escaping mode and the
next byte are, it passes the code point on to `cmark_render_code_point`. -/
def outc (renderer : cmark_renderer) (node : cmark_node) (escape : cmark_escaping)
    (c : Char) (nextc : Nat) : cmark_renderer :=
  cmark_render_code_point renderer c

/-- Modelled from the spec: `request_break(level)` of the Output Writer
(§4.1, missing from the sources); requests coalesce to the highest level
asked for since the last emission. -/
def request_break (renderer : cmark_renderer) (level : Nat) : cmark_renderer :=
  { renderer with need_cr := max renderer.need_cr level }

/-- Modelled from the spec: the number of newlines the writer (missing from
the sources) still has to add to honour a pending break (§4.1, §8 "no double
blank lines").  The second argument is the buffer read backwards: a newline
already at the end of the buffer counts towards the break, and nothing is
added in front of the first emitted content. -/
def owedNewlines : Nat → List Char → Nat
  | 0, _ => 0
  | _ + 1, [] => 0
  | n + 1, c :: rest => if c = '\n' then owedNewlines n rest else n + 1

/-- Modelled from the spec: the flush of a pending break before the next
emitted content (§4.1, writer missing from the sources). -/
def flushBreaks (renderer : cmark_renderer) : cmark_renderer :=
  if renderer.need_cr = 0 then renderer
  else
    { renderer with
      buffer := renderer.buffer ++
        List.replicate (owedNewlines renderer.need_cr renderer.buffer.reverse) '\n',
      column := 0, need_cr := 0, last_breakable := 0 }

/-- Modelled from the spec: the line break the writer (missing from the
sources) inserts "at the nearest preceding whitespace boundary" (§4.1): the
whitespace at `last_breakable` is replaced by a newline and the column
restarts after it. -/
def breakLine (renderer : cmark_renderer) : cmark_renderer :=
  let remainder := renderer.buffer.drop (renderer.last_breakable + 1)
  { renderer with
    buffer := renderer.buffer.take renderer.last_breakable ++ '\n' :: remainder,
    column := remainder.length, last_breakable := 0 }

/-- Modelled from the spec: the first byte of the text that follows the
current code point, 0 at the end of the text; the writer (missing from the
sources) passes it to the character callback as `nextc`. -/
def nextByte : List Char → Nat
  | [] => 0
  | d :: _ => ((String.utf8EncodeChar d).headD 0).toNat

/-- Modelled from the spec: what `emit` of the Output Writer (§4.1, missing
from the sources) does with one code point.  A space of wrappable text is a
place where the line may be broken; LITERAL text is passed through unchanged
(§4.2) and a literal newline resets the column; text in any other mode goes
through the character callback.  When wrapping is allowed and a positive
width is exceeded, the line is broken at the last breakable whitespace;
otherwise the text is appended unconditionally. -/
def emitChar (outc : cmark_renderer → cmark_node → cmark_escaping → Char → Nat → cmark_renderer)
    (node : cmark_node) (wrap : Bool) (escape : cmark_escaping)
    (renderer : cmark_renderer) (c : Char) (nextc : Nat) : cmark_renderer :=
  let r : cmark_renderer :=
    if c = ' ' ∧ wrap = true then
      { renderer with buffer := renderer.buffer ++ [' '], column := renderer.column + 1,
                      last_breakable := renderer.buffer.length }
    else if escape = cmark_escaping.LITERAL then
      if c = '\n' then
        { renderer with buffer := renderer.buffer ++ ['\n'], column := 0, last_breakable := 0 }
      else cmark_render_code_point renderer c
    else outc renderer node escape c nextc
  if wrap = true ∧ 0 < r.width ∧ r.width < (r.column : Int) ∧ 0 < r.last_breakable then
    breakLine r
  else r

/-- Modelled from the spec: `emit` applied to the code points of a text, one
after the other (writer missing from the sources). -/
def emitChars (outc : cmark_renderer → cmark_node → cmark_escaping → Char → Nat → cmark_renderer)
    (node : cmark_node) (wrap : Bool) (escape : cmark_escaping) :
    cmark_renderer → List Char → cmark_renderer
  | renderer, [] => renderer
  | renderer, c :: rest =>
      emitChars outc node wrap escape (emitChar outc node wrap escape renderer c (nextByte rest)) rest

/-- Modelled from the spec: `emit(text, allow_wrap, escaping_mode)` of the
Output Writer (§4.1), the function behind `renderer->out`, missing from the
sources: a pending break is flushed, then the text is written. -/
def S_out (outc : cmark_renderer → cmark_node → cmark_escaping → Char → Nat → cmark_renderer)
    (renderer : cmark_renderer) (node : cmark_node) (source : String) (wrap : Bool)
    (escape : cmark_escaping) : cmark_renderer :=
  emitChars outc node wrap escape (flushBreaks renderer) source.toList

/-- Modelled from the spec: how the renderer (missing from the sources)
serves one call a handler makes on it. -/
def applyCall (outc : cmark_renderer → cmark_node → cmark_escaping → Char → Nat → cmark_renderer)
    (node : cmark_node) (renderer : cmark_renderer) : RendererCall → cmark_renderer
  | .out s wrap escaping => S_out outc renderer node s wrap escaping
  | .request_break level => request_break renderer level

/-- The state of one render call: the renderer, the handler invocations made
so far (kind and event, oldest first) and the debug lines written so far. -/
structure RenderRun where
  renderer : cmark_renderer
  handled : List (cmark_node_type × cmark_event_type)
  debug : List String
  deriving DecidableEq, Repr

/-- The text accumulated in the renderer's buffer; at the end of the
traversal this is the text the handlers have emitted, which `finish()` of the
Output Writer returns (§4.1). -/
def RenderRun.emitted (run : RenderRun) : String :=
  String.mk run.renderer.buffer

/-- Modelled from the spec: one step of the loop of `cmark_render` (missing
from the sources): the handler is called on the node and the event, and the
calls it makes are served by the renderer.  `none` is the assertion failure
of the handler, which ends the program; otherwise the new state comes with
the value the handler returned. -/
def dispatch (outc : cmark_renderer → cmark_node → cmark_escaping → Char → Nat → cmark_renderer)
    (render_node : cmark_node → cmark_event_type → Int → HandlerResult) (options : Int)
    (run : RenderRun) (node : cmark_node) (ev_type : cmark_event_type) :
    Option (RenderRun × Int) :=
  let res := render_node node ev_type options
  match res.ret with
  | none => none
  | some r =>
      some ({ renderer := res.calls.foldl (applyCall outc node) run.renderer,
              handled := run.handled ++ [(node.type, ev_type)],
              debug := run.debug ++ res.debug }, r)

mutual
/-- Modelled from the spec: the depth-first traversal of §4.3 performed by
`cmark_render` (missing from the sources): "for each node, fire Enter, then
recursively visit each child in sequence, then fire Exit".  A node without
children receives both events as well, one right after the other.  §4.3
gives the value returned by the handler no part in the walk. -/
def renderNode (outc : cmark_renderer → cmark_node → cmark_escaping → Char → Nat → cmark_renderer)
    (render_node : cmark_node → cmark_event_type → Int → HandlerResult) (options : Int) :
    cmark_node → RenderRun → Option RenderRun
  | .mk type literal children, run =>
      match dispatch outc render_node options run (.mk type literal children)
          cmark_event_type.CMARK_EVENT_ENTER with
      | none => none
      | some (run1, _) =>
          match renderChildren outc render_node options children run1 with
          | none => none
          | some run2 =>
              (dispatch outc render_node options run2 (.mk type literal children)
                cmark_event_type.CMARK_EVENT_EXIT).map Prod.fst
/-- Modelled from the spec: the children of a node are visited in their
original order (§3, §4.3; traversal missing from the sources). -/
def renderChildren (outc : cmark_renderer → cmark_node → cmark_escaping → Char → Nat → cmark_renderer)
    (render_node : cmark_node → cmark_event_type → Int → HandlerResult) (options : Int) :
    List cmark_node → RenderRun → Option RenderRun
  | [], run => some run
  | child :: rest, run =>
      match renderNode outc render_node options child run with
      | none => none
      | some run1 => renderChildren outc render_node options rest run1
end

/-- The memory allocator handed through to the library; it has no influence
on what is rendered. -/
structure cmark_mem where
  deriving DecidableEq, Repr

/-- The ways a render call can end (§7): `rejected what` is a configuration
error, refused at the entry of the call with a description; `aborted` is the
fatal contract violation raised by a handler; `finished run` is a completed
traversal. -/
inductive RenderResult where
  | rejected (what : String)
  | aborted
  | finished (run : RenderRun)
  deriving DecidableEq, Repr

/-- The final state of a render call that ran to completion; there is none
when the call was rejected or stopped on a contract violation, and then no
text is handed back. -/
def RenderResult.run : RenderResult → Option RenderRun
  | .finished run => some run
  | _ => none

/-- Modelled from the spec: `cmark_render` of the cmark library (missing
from the sources).  A negative line width is a configuration error (§6:
the width is an integer at least 0; §7: "rejected at render-call entry,
before any traversal begins, with a descriptive result").  Otherwise a fresh
render context is made for the width and the tree is traversed from its
root; the call ends as `aborted` when a handler hit its assertion and as
`finished` with the final state otherwise.  The call has no parameter for an
output grammar. -/
def cmark_render (mem : cmark_mem) (root : cmark_node) (options : Int) (width : Int)
    (outc : cmark_renderer → cmark_node → cmark_escaping → Char → Nat → cmark_renderer)
    (render_node : cmark_node → cmark_event_type → Int → HandlerResult) : RenderResult :=
  if width < 0 then RenderResult.rejected "line width must not be negative"
  else
    match renderNode outc render_node options root
        { renderer := { buffer := [], column := 0, width := width, need_cr := 0,
                        last_breakable := 0 },
          handled := [], debug := [] } with
    | none => RenderResult.aborted
    | some run => RenderResult.finished run

/-- The entry point `MarkdownRender::renderWithMem`: it passes its arguments
on to `cmark_render` together with `outc` and `S_render_node`. -/
def renderWithMem (root : cmark_node) (options : Int) (width : Int) (mem : cmark_mem) :
    RenderResult :=
  cmark_render mem root options width outc S_render_node

/-- The text the handler asks the renderer to write at one event on a node
of the given kind and literal. -/
def handlerText : cmark_node_type → String → List Char
  | .CMARK_NODE_TEXT, literal => literal.toList
  | .CMARK_NODE_EMPH, _ => ['_']
  | _, _ => []

mutual
/-- The text the handler writes over the walk of a tree: what it writes on
entering the node, then the text of the children, then what it writes on
leaving the node. -/
def renderedText : cmark_node → List Char
  | .mk type literal children =>
      handlerText type literal ++ renderedTextList children ++ handlerText type literal
/-- The text written over the walk of a sequence of sibling trees. -/
def renderedTextList : List cmark_node → List Char
  | [] => []
  | child :: rest => renderedText child ++ renderedTextList rest
end

mutual
/-- Every node of the tree has a kind of the closed enumeration (§3). -/
def allKnown : cmark_node → Bool
  | .mk type _ children => type.inEnumeration && allKnownList children
/-- Every node of every tree of the sequence has a kind of the enumeration. -/
def allKnownList : List cmark_node → Bool
  | [] => true
  | child :: rest => allKnown child && allKnownList rest
end

/-! ## What the specification says a tree renders to -/

mutual
/-- The text the tree is said to render to: the literals of its Text nodes
in document order, with "_" where an Emph node is entered and where it is
left. -/
def documentText : cmark_node → List Char
  | .mk type literal children =>
      match type with
      | .CMARK_NODE_TEXT => literal.toList ++ documentTextList children
      | .CMARK_NODE_EMPH => '_' :: (documentTextList children ++ ['_'])
      | _ => documentTextList children
/-- The text of a sequence of sibling trees, first sibling first. -/
def documentTextList : List cmark_node → List Char
  | [] => []
  | child :: rest => documentText child ++ documentTextList rest
end

end MarkdownRender

namespace IPFS

/-! ## ipfs.cc

The three wrappers call the IPFS HTTP client and read its JSON answer.  The
client call is the environment of the wrapper: its outcome, a JSON value or
a thrown exception, is an argument of the embedded function. -/

/-- A JSON value as held by `ipfs::Json`.  Numbers are the decimal numbers of
the JSON text; the members of an object are listed with their keys. -/
inductive Json where
  | null
  | boolean (b : Bool)
  | number (x : ℚ)
  | string (s : String)
  | array (elements : List Json)
  | object (members : List (String × Json))

/-- What a call can throw.  `runtime_error` is `std::runtime_error`, which the
client raises on connection problems; `type_error` is the exception of the
JSON library for an access that does not fit the value, and it is not a
`std::runtime_error`; `other` is any further exception. -/
inductive Thrown where
  | runtime_error (what : String)
  | type_error (id : Nat)
  | other (what : String)
  deriving DecidableEq, Repr

/-- Modelled from the spec: §6 names the content-store interface only, and the
JSON library behind `ipfs::Json` is missing from the sources;
`j.is_array()`. -/
def Json.is_array : Json → Bool
  | .array _ => true
  | _ => false

/-- Modelled from the spec: §6 names the content-store interface only, and the
JSON library behind `ipfs::Json` is missing from the sources;
`j.size()`, the number of entries: none for null, the elements of an array,
the members of an object, one for a scalar. -/
def Json.size : Json → Nat
  | .null => 0
  | .array elements => elements.length
  | .object members => members.length
  | _ => 1

/-- Modelled from the spec: §6 names the content-store interface only, and the
JSON library behind `ipfs::Json` is missing from the sources;
`j[key]` on a mutable value: the member of an object (null when the object
has no such member), null on null, a type error on anything else. -/
def Json.index : Json → String → Except Thrown Json
  | .null, _ => .ok .null
  | .object members, key => .ok ((members.lookup key).getD .null)
  | _, _ => .error (.type_error 305)

/-- Modelled from the spec: §6 names the content-store interface only, and the
JSON library behind `ipfs::Json` is missing from the sources;
the conversion of a value to `std::string`, a type error unless the value is
a string. -/
def Json.get_string : Json → Except Thrown String
  | .string s => .ok s
  | _ => .error (.type_error 302)

/-- Modelled from the spec: §6 names the content-store interface only, and the
JSON library behind `ipfs::Json` is missing from the sources;
the conversion of a value to the C++ type `float`, a type error unless the
value is a number or a boolean.  `toFloat` is the rounding of a decimal
number to a `float`. -/
def Json.get_float {F : Type} (toFloat : ℚ → F) : Json → Except Thrown F
  | .number x => .ok (toFloat x)
  | .boolean b => .ok (toFloat (if b then 1 else 0))
  | _ => .error (.type_error 302)

/-- Modelled from the spec: the result of `bandwidth()` is a keyed record (§6),
held in a `std::map`, which is missing from the sources; `insert` keeps the
keys sorted (strings are compared character by character) and leaves the map
unchanged when the key is already present. -/
def mapInsert {V : Type} : List (String × V) → String → V → List (String × V)
  | [], key, value => [(key, value)]
  | (k, v) :: rest, key, value =>
      if key.toList < k.toList then (key, value) :: (k, v) :: rest
      else if key = k then (k, v) :: rest
      else (k, v) :: mapInsert rest key value

/-- The wrapper `IPFS::getNrPeers`.  `swarmPeers` is the outcome of
`client.SwarmPeers(&peers)`.  A `std::runtime_error` thrown inside the `try`
block is caught and ignored, and the function then returns 0; any other
exception leaves the function. -/
def getNrPeers (swarmPeers : Except Thrown Json) : Except Thrown Nat :=
  let body : Except Thrown Nat :=
    match swarmPeers with
    | .error e => .error e
    | .ok peers =>
        match peers.index "Peers" with
        | .error e => .error e
        | .ok entry => .ok entry.size
  match body with
  | .error (.runtime_error _) =>
      -- ignore connection issues
      .ok 0
  | result => result

/-- The wrapper `IPFS::getBandwidthRates`.  `statsBw` is the outcome of
`client.StatsBw(&bandwidth_info)`.  The map starts empty; a
`std::runtime_error` thrown inside the `try` block is caught and ignored,
and the map is returned as it is at that point. -/
def getBandwidthRates {F : Type} (toFloat : ℚ → F) (statsBw : Except Thrown Json) :
    Except Thrown (List (String × F)) :=
  let bandwidthRates : List (String × F) := []
  let body : Except Thrown (List (String × F)) :=
    match statsBw with
    | .error e => .error e
    | .ok bandwidth_info =>
        match (bandwidth_info.index "RateIn").bind (Json.get_float toFloat) with
        | .error e => .error e
        | .ok rateIn =>
            match (bandwidth_info.index "RateOut").bind (Json.get_float toFloat) with
            | .error e => .error e
            | .ok rateOut => .ok (mapInsert (mapInsert bandwidthRates "in" rateIn) "out" rateOut)
  match body with
  | .error (.runtime_error _) =>
      -- ignore connection issues
      .ok bandwidthRates
  | result => result

/-- The wrapper `IPFS::publish`.  `filesAdd` is the outcome of
`client.FilesAdd` for the single upload built from `filename` and `content`.  For an array the loop returns in its first iteration, with
the "hash" member of the first element; otherwise the function falls back to
the empty string.  A `std::runtime_error` is caught and the empty string
returned. -/
def publish (filesAdd : String → String → Except Thrown Json) (filename content : String) :
    Except Thrown String :=
  let body : Except Thrown String :=
    match filesAdd filename content with
    | .error e => .error e
    | .ok result =>
        if result.is_array then
          match result with
          | .array (files :: _) => (files.index "hash").bind Json.get_string
          | _ =>
              -- something is wrong, fallback
              .ok ""
        else
          -- something is wrong, fallback
          .ok ""
  match body with
  | .error (.runtime_error _) =>
      -- ignore connection issues
      .ok ""  -- empty string, something went wrong
  | result => result

end IPFS

/-! # Properties -/

namespace MarkdownRender
open cmark_node_type cmark_event_type cmark_escaping

/-! ## The output writer on text that may not be wrapped -/

theorem emitChar_nowrap (node : cmark_node) (escape : cmark_escaping) (r : cmark_renderer)
    (c : Char) (nextc : Nat) :
    (emitChar outc node false escape r c nextc).buffer = r.buffer ++ [c] ∧
    (emitChar outc node false escape r c nextc).need_cr = r.need_cr := by
  unfold emitChar
  by_cases hl : escape = LITERAL
  · by_cases hn : c = '\n'
    · simp [hl, hn]
    · simp [hl, hn, cmark_render_code_point]
  · simp [hl, outc, cmark_render_code_point]

theorem emitChars_nowrap (node : cmark_node) (escape : cmark_escaping) (cs : List Char) :
    ∀ r : cmark_renderer,
      (emitChars outc node false escape r cs).buffer = r.buffer ++ cs ∧
      (emitChars outc node false escape r cs).need_cr = r.need_cr := by
  induction cs with
  | nil => intro r; simp [emitChars]
  | cons c rest ih =>
      intro r
      obtain ⟨hb, hn⟩ := emitChar_nowrap node escape r c (nextByte rest)
      obtain ⟨hb2, hn2⟩ := ih (emitChar outc node false escape r c (nextByte rest))
      simp only [emitChars]
      rw [hb2, hn2, hb, hn]
      simp

theorem flushBreaks_buffer (r : cmark_renderer) :
    (flushBreaks r).buffer =
      r.buffer ++ List.replicate (owedNewlines r.need_cr r.buffer.reverse) '\n' ∧
    (flushBreaks r).need_cr = 0 := by
  unfold flushBreaks
  by_cases h : r.need_cr = 0
  · simp [h, owedNewlines]
  · simp [h]

theorem S_out_nowrap (r : cmark_renderer) (node : cmark_node) (s : String)
    (escape : cmark_escaping) :
    (S_out outc r node s false escape).buffer =
      r.buffer ++ List.replicate (owedNewlines r.need_cr r.buffer.reverse) '\n' ++ s.toList ∧
    (S_out outc r node s false escape).need_cr = 0 := by
  unfold S_out
  obtain ⟨hb, hn⟩ := emitChars_nowrap node escape s.toList (flushBreaks r)
  obtain ⟨fb, fn⟩ := flushBreaks_buffer r
  rw [hb, hn, fb, fn]
  simp

theorem S_out_nowrap_clean (r : cmark_renderer) (node : cmark_node) (s : String)
    (escape : cmark_escaping) (h : r.need_cr = 0) :
    (S_out outc r node s false escape).buffer = r.buffer ++ s.toList ∧
    (S_out outc r node s false escape).need_cr = 0 := by
  obtain ⟨hb, hn⟩ := S_out_nowrap r node s escape
  refine ⟨?_, hn⟩
  rw [hb, h]
  simp [owedNewlines]

/-! ## One step of the render loop -/

theorem dispatch_known (options : Int) (t : cmark_node_type) (l : String)
    (cs : List cmark_node) (ev : cmark_event_type) (run : RenderRun)
    (ht : t.inEnumeration = true) (hn : run.renderer.need_cr = 0) :
    ∃ run1, dispatch outc S_render_node options run (.mk t l cs) ev = some (run1, 1) ∧
      run1.renderer.buffer = run.renderer.buffer ++ handlerText t l ∧
      run1.renderer.need_cr = 0 := by
  have hT := S_out_nowrap_clean run.renderer (.mk CMARK_NODE_TEXT l cs) l NORMAL hn
  have hE := S_out_nowrap_clean run.renderer (.mk CMARK_NODE_EMPH l cs) "_" LITERAL hn
  cases t <;> cases ev <;>
    simp_all [dispatch, S_render_node, cmark_node.type, cmark_node_type.inEnumeration,
      handlerText, applyCall, OUT, LIT, cmark_node_get_literal]

theorem dispatch_other (options : Int) (code : Nat) (l : String)
    (cs : List cmark_node) (ev : cmark_event_type) (run : RenderRun) :
    dispatch outc S_render_node options run (.mk (other code) l cs) ev = none := by
  simp [dispatch, S_render_node, cmark_node.type]

/-! ## The text written over the walk of a tree -/

mutual
theorem renderNode_text (options : Int) :
    ∀ (node : cmark_node) (run : RenderRun), allKnown node = true →
      run.renderer.need_cr = 0 →
      ∃ run1, renderNode outc S_render_node options node run = some run1 ∧
        run1.renderer.buffer = run.renderer.buffer ++ renderedText node ∧
        run1.renderer.need_cr = 0
  | .mk t l cs, run, hk, hn => by
      simp only [allKnown, Bool.and_eq_true] at hk
      obtain ⟨ht, hcs⟩ := hk
      obtain ⟨run1, hd, hb1, hn1⟩ := dispatch_known options t l cs CMARK_EVENT_ENTER run ht hn
      obtain ⟨run2, hc, hb2, hn2⟩ := renderChildren_text options cs run1 hcs hn1
      obtain ⟨run3, hx, hb3, hn3⟩ := dispatch_known options t l cs CMARK_EVENT_EXIT run2 ht hn2
      refine ⟨run3, ?_, ?_, hn3⟩
      · simp [renderNode, hd, hc, hx]
      · rw [hb3, hb2, hb1]
        simp [renderedText]
theorem renderChildren_text (options : Int) :
    ∀ (cs : List cmark_node) (run : RenderRun), allKnownList cs = true →
      run.renderer.need_cr = 0 →
      ∃ run1, renderChildren outc S_render_node options cs run = some run1 ∧
        run1.renderer.buffer = run.renderer.buffer ++ renderedTextList cs ∧
        run1.renderer.need_cr = 0
  | [], run, _, hn => ⟨run, by simp [renderChildren], by simp [renderedTextList], hn⟩
  | child :: rest, run, hk, hn => by
      simp only [allKnownList, Bool.and_eq_true] at hk
      obtain ⟨run1, hc, hb1, hn1⟩ := renderNode_text options child run hk.1 hn
      obtain ⟨run2, hr, hb2, hn2⟩ := renderChildren_text options rest run1 hk.2 hn1
      refine ⟨run2, ?_, ?_, hn2⟩
      · simp [renderChildren, hc, hr]
      · rw [hb2, hb1]
        simp [renderedTextList]
end

/-! ## Whole render calls -/

theorem renderWithMem_other (code : Nat) (l : String) (cs : List cmark_node)
    (options width : Int) (mem : cmark_mem) :
    (renderWithMem (.mk (other code) l cs) options width mem).run = none ∧
    (0 ≤ width →
      renderWithMem (.mk (other code) l cs) options width mem = RenderResult.aborted) := by
  by_cases hw : width < 0
  · refine ⟨by simp [renderWithMem, cmark_render, hw, RenderResult.run], ?_⟩
    intro h
    exact absurd hw (not_lt.mpr h)
  · refine ⟨?_, fun _ => ?_⟩ <;>
      simp [renderWithMem, cmark_render, hw, renderNode, dispatch_other, RenderResult.run]

/-! ## The claims about the handler and the render call -/

/-- C2 (as the code has it): for every Text node the handler emits the
node's literal exactly once on whichever event it is called with, Enter as
well as Exit, with allow_wrap = false and escaping mode NORMAL. -/
theorem C2_text_emits_on_every_event (literal : String) (children : List cmark_node)
    (ev : cmark_event_type) (options : Int) :
    S_render_node (.mk CMARK_NODE_TEXT literal children) ev options =
      { debug := ["Text"], calls := [RendererCall.out literal false NORMAL], ret := some 1 } := by
  cases ev <;> simp [S_render_node, cmark_node.type, OUT, cmark_node_get_literal]

/-- C2 fails as stated: on Enter the handler of a Text node does emit, and
on Exit the call it makes has allow_wrap = false, not true. -/
theorem C2_counterexample :
    (S_render_node (.mk CMARK_NODE_TEXT "x" []) CMARK_EVENT_ENTER 0).calls ≠ [] ∧
    (S_render_node (.mk CMARK_NODE_TEXT "x" []) CMARK_EVENT_EXIT 0).calls ≠
      [RendererCall.out "x" true NORMAL] := by
  decide

/-- C3 (as the code has it): for every Strong node the handler makes no call
on the renderer, on Enter and on Exit alike; it writes the debug line "Bold"
and returns 1. -/
theorem C3_strong_emits_nothing (literal : String) (children : List cmark_node)
    (ev : cmark_event_type) (options : Int) :
    S_render_node (.mk CMARK_NODE_STRONG literal children) ev options =
      { debug := ["Bold"], calls := [], ret := some 1 } := by
  cases ev <;> simp [S_render_node, cmark_node.type]

/-- C3 fails as stated: the handler of a Strong node does not emit "**",
neither on Enter nor on Exit, and Document -> Strong -> Text("x") renders
without any "**". -/
theorem C3_counterexample :
    (S_render_node (.mk CMARK_NODE_STRONG "" []) CMARK_EVENT_ENTER 0).calls ≠
      [RendererCall.out "**" false LITERAL] ∧
    (S_render_node (.mk CMARK_NODE_STRONG "" []) CMARK_EVENT_EXIT 0).calls ≠
      [RendererCall.out "**" false LITERAL] ∧
    (renderWithMem
      (.mk CMARK_NODE_DOCUMENT "" [.mk CMARK_NODE_STRONG "" [.mk CMARK_NODE_TEXT "x" []]])
      0 0 {}).run.map RenderRun.emitted = some "xx" := by
  decide

/-- C5: for a node whose kind is not one of the 22 kinds of the enumeration
the handler does not return: it stops at the assertion of the default branch,
on Enter and on Exit alike, having made no call on the renderer and written
nothing; for a node whose kind is in the enumeration the handler returns 1,
so that branch is not reached.  A render call on a tree whose root is of an
unknown kind therefore ends without any text being handed back, as a
contract violation whenever the width is accepted. -/
theorem C5_unknown_kind_is_fatal (node : cmark_node) (ev : cmark_event_type) (options : Int) :
    (node.type.inEnumeration = false →
      S_render_node node ev options = { debug := [], calls := [], ret := none }) ∧
    (node.type.inEnumeration = true → (S_render_node node ev options).ret = some 1) ∧
    (node.type.inEnumeration = false →
      ∀ (width : Int) (mem : cmark_mem),
        (renderWithMem node options width mem).run = none ∧
        (0 ≤ width → renderWithMem node options width mem = RenderResult.aborted)) := by
  cases node with
  | mk t l cs =>
    cases t <;> cases ev <;>
      simp [S_render_node, cmark_node.type, cmark_node_type.inEnumeration] <;>
      exact fun width mem => renderWithMem_other _ l cs options width mem

/-- C5 at concrete nodes: a node of an unknown kind on Exit, a Text node on
Enter, and a render call on the node of unknown kind. -/
theorem C5_unknown_kind_is_fatal_witness :
    S_render_node (.mk (other 7) "x" []) CMARK_EVENT_EXIT 0 =
      { debug := [], calls := [], ret := none } ∧
    (S_render_node (.mk CMARK_NODE_TEXT "x" []) CMARK_EVENT_ENTER 0).ret = some 1 ∧
    (renderWithMem (.mk (other 7) "x" []) 0 0 {}).run = none ∧
    renderWithMem (.mk (other 7) "x" []) 0 0 {} = RenderResult.aborted :=
  ⟨(C5_unknown_kind_is_fatal (.mk (other 7) "x" []) CMARK_EVENT_EXIT 0).1 (by decide),
   (C5_unknown_kind_is_fatal (.mk CMARK_NODE_TEXT "x" []) CMARK_EVENT_ENTER 0).2.1 (by decide),
   ((C5_unknown_kind_is_fatal (.mk (other 7) "x" []) CMARK_EVENT_EXIT 0).2.2 (by decide) 0 {}).1,
   ((C5_unknown_kind_is_fatal (.mk (other 7) "x" []) CMARK_EVENT_EXIT 0).2.2 (by decide) 0 {}).2
     (by decide)⟩

/-- C6: for every negative line width the render entry point rejects the
call before any traversal begins: the result is the rejection with its
description, whatever the tree; no handler is invoked on any node, the
result being the same for every handler and every character callback that
could be passed; and no text is handed back. -/
theorem C6_negative_width_is_rejected (root : cmark_node) (options width : Int)
    (mem : cmark_mem) (h : width < 0) :
    renderWithMem root options width mem =
      RenderResult.rejected "line width must not be negative" ∧
    (∀ (callback : cmark_renderer → cmark_node → cmark_escaping → Char → Nat → cmark_renderer)
       (render_node : cmark_node → cmark_event_type → Int → HandlerResult),
      cmark_render mem root options width callback render_node =
        RenderResult.rejected "line width must not be negative") ∧
    (renderWithMem root options width mem).run = none := by
  refine ⟨?_, ?_, ?_⟩
  · simp [renderWithMem, cmark_render, h]
  · intro callback render_node
    simp [cmark_render, h]
  · simp [renderWithMem, cmark_render, h, RenderResult.run]

/-- C6 at the width -1 and the tree Document -> Text("x"), with a handler
that would stop at its assertion on every node. -/
theorem C6_negative_width_is_rejected_witness :
    renderWithMem (.mk CMARK_NODE_DOCUMENT "" [.mk CMARK_NODE_TEXT "x" []]) 0 (-1) {} =
      RenderResult.rejected "line width must not be negative" ∧
    cmark_render {} (.mk CMARK_NODE_DOCUMENT "" [.mk CMARK_NODE_TEXT "x" []]) 0 (-1) outc
      (fun _ _ _ => { debug := [], calls := [], ret := none }) =
      RenderResult.rejected "line width must not be negative" ∧
    (renderWithMem (.mk CMARK_NODE_DOCUMENT "" [.mk CMARK_NODE_TEXT "x" []]) 0 (-1) {}).run =
      none :=
  ⟨(C6_negative_width_is_rejected _ 0 (-1) {} (by decide)).1,
   (C6_negative_width_is_rejected _ 0 (-1) {} (by decide)).2.1 outc _,
   (C6_negative_width_is_rejected _ 0 (-1) {} (by decide)).2.2⟩

/-- C10: the callback outc ignores the escaping mode and the next byte: for
every code point it appends exactly that code point, unchanged, to the
output.  Hence a text written through outc in NORMAL mode and the same text
written in LITERAL mode give the same output, and so do the two modes of
`renderer->out` for text that is not wrapped, as in the Text case of the
handler. -/
theorem C10_outc_ignores_escaping (renderer : cmark_renderer) (node : cmark_node) (c : Char) :
    (∀ (escape : cmark_escaping) (nextc : Nat),
      outc renderer node escape c nextc = cmark_render_code_point renderer c ∧
      (outc renderer node escape c nextc).buffer = renderer.buffer ++ [c]) ∧
    (∀ (text : List Char) (nextc : Nat),
      text.foldl (fun r d => outc r node NORMAL d nextc) renderer =
        text.foldl (fun r d => outc r node LITERAL d nextc) renderer ∧
      (text.foldl (fun r d => outc r node NORMAL d nextc) renderer).buffer =
        renderer.buffer ++ text) ∧
    (∀ (s : String),
      (S_out outc renderer node s false NORMAL).buffer =
        (S_out outc renderer node s false LITERAL).buffer) := by
  refine ⟨?_, ?_, ?_⟩
  · intro escape nextc
    simp [outc, cmark_render_code_point]
  · intro text nextc
    refine ⟨rfl, ?_⟩
    induction text generalizing renderer with
    | nil => simp
    | cons d rest ih =>
        rw [List.foldl_cons, ih]
        simp [outc, cmark_render_code_point]
  · intro s
    rw [(S_out_nowrap renderer node s NORMAL).1, (S_out_nowrap renderer node s LITERAL).1]

end MarkdownRender

namespace IPFS

/-! ## The claims about the IPFS wrappers -/

/-- C7: publish never lets a connection failure out.  When the FilesAdd call
throws a runtime error, publish returns the empty string; when the call
succeeds with a non-empty array whose first element has the string `hash`
under "hash", publish returns `hash` (in general it returns what reading
the "hash" member of the first element as a string gives); when it succeeds
with a value that is not an array, or with the empty array, publish returns
the empty string. -/
theorem C7_publish_swallows_connection_failure
    (filesAdd : String → String → Except Thrown Json) (filename content : String) :
    (∀ what : String, publish filesAdd filename content ≠ .error (.runtime_error what)) ∧
    (∀ what : String, filesAdd filename content = .error (.runtime_error what) →
      publish filesAdd filename content = .ok "") ∧
    (∀ (first : Json) (rest : List Json) (hash : String),
      filesAdd filename content = .ok (.array (first :: rest)) →
      first.index "hash" = .ok (.string hash) →
      publish filesAdd filename content = .ok hash) ∧
    (∀ (first : Json) (rest : List Json),
      filesAdd filename content = .ok (.array (first :: rest)) →
      publish filesAdd filename content = (first.index "hash").bind Json.get_string) ∧
    (∀ result : Json, filesAdd filename content = .ok result →
      (result.is_array = false ∨ result = .array []) →
      publish filesAdd filename content = .ok "") := by
  refine ⟨?_, ?_, ?_, ?_, ?_⟩
  · intro what
    unfold publish
    rcases h : filesAdd filename content with e | result
    · cases e <;> simp
    · cases result with
      | array elements =>
          cases elements with
          | nil => simp [Json.is_array]
          | cons first rest =>
              rcases hi : first.index "hash" with e | v
              · cases first <;> simp_all [Json.index, Json.is_array, Except.bind] <;>
                  (subst hi; simp)
              · cases v <;> simp [Json.is_array, hi, Except.bind, Json.get_string]
      | _ => simp [Json.is_array]
  · intro what h
    simp [publish, h]
  · intro first rest hash h hi
    simp [publish, h, hi, Json.is_array, Except.bind, Json.get_string]
  · intro first rest h
    rcases hi : first.index "hash" with e | v
    · cases first <;> simp_all [Json.index, publish, Json.is_array, Except.bind] <;>
        (subst hi; simp)
    · cases v <;> simp [publish, h, Json.is_array, hi, Except.bind, Json.get_string]
  · intro result h hr
    rcases hr with hr | hr
    · simp [publish, h, hr]
    · subst hr
      simp [publish, h, Json.is_array]

/-- C7 at concrete outcomes of the client call: a connection failure, an
array of one file record, and the empty array. -/
theorem C7_publish_swallows_connection_failure_witness :
    publish (fun _ _ => .error (.runtime_error "connection refused")) "index.md" "hello" =
      .ok "" ∧
    publish (fun name _ => .ok (.array [.object [("path", .string name),
      ("hash", .string "QmHash"), ("size", .number 5)]])) "index.md" "hello" = .ok "QmHash" ∧
    publish (fun _ _ => .ok (.array [])) "index.md" "hello" = .ok "" :=
  ⟨(C7_publish_swallows_connection_failure _ "index.md" "hello").2.1 "connection refused" rfl,
   (C7_publish_swallows_connection_failure _ "index.md" "hello").2.2.1 _ _ "QmHash" rfl rfl,
   (C7_publish_swallows_connection_failure _ "index.md" "hello").2.2.2.2 _ rfl (Or.inr rfl)⟩

/-- C8: the telemetry calls fall back to a default on a connection failure:
when the client call throws a runtime error, getNrPeers returns 0 and
getBandwidthRates returns the empty map.  When the call succeeds,
getNrPeers returns the number of entries of the value under "Peers", and
getBandwidthRates returns the map with exactly the keys "in" and "out",
holding the numbers under "RateIn" and "RateOut" converted to float. -/
theorem C8_telemetry_defaults {F : Type} (toFloat : ℚ → F) :
    (∀ what : String, getNrPeers (.error (.runtime_error what)) = .ok 0) ∧
    (∀ what : String, getBandwidthRates toFloat (.error (.runtime_error what)) = .ok []) ∧
    (∀ (peers entry : Json), peers.index "Peers" = .ok entry →
      getNrPeers (.ok peers) = .ok entry.size) ∧
    (∀ (bandwidth_info : Json) (rateIn rateOut : ℚ),
      bandwidth_info.index "RateIn" = .ok (.number rateIn) →
      bandwidth_info.index "RateOut" = .ok (.number rateOut) →
      getBandwidthRates toFloat (.ok bandwidth_info) =
        .ok [("in", toFloat rateIn), ("out", toFloat rateOut)]) := by
  refine ⟨?_, ?_, ?_, ?_⟩
  · intro what
    simp [getNrPeers]
  · intro what
    simp [getBandwidthRates]
  · intro peers entry h
    simp [getNrPeers, h]
  · intro bandwidth_info rateIn rateOut hin hout
    have h2 : ¬ ("out" = "in") := by decide
    simp [getBandwidthRates, hin, hout, Except.bind, Json.get_float, mapInsert, h2]
    decide

/-- C8 at concrete outcomes of the client calls: a connection failure for
each call, a swarm of two peers, and the rates 3 and 1/2. -/
theorem C8_telemetry_defaults_witness :
    getNrPeers (.error (.runtime_error "connection refused")) = .ok 0 ∧
    getBandwidthRates (fun x : ℚ => x) (.error (.runtime_error "connection refused")) = .ok [] ∧
    getNrPeers (.ok (.object [("Peers", .array [.object [], .object []])])) = .ok 2 ∧
    getBandwidthRates (fun x : ℚ => x)
      (.ok (.object [("RateIn", .number 3), ("RateOut", .number (1 / 2))])) =
      .ok [("in", 3), ("out", 1 / 2)] :=
  ⟨(C8_telemetry_defaults (fun x : ℚ => x)).1 "connection refused",
   (C8_telemetry_defaults (fun x : ℚ => x)).2.1 "connection refused",
   (C8_telemetry_defaults (fun x : ℚ => x)).2.2.1 _ (.array [.object [], .object []]) rfl,
   (C8_telemetry_defaults (fun x : ℚ => x)).2.2.2 _ 3 (1 / 2) rfl rfl⟩

end IPFS
